import Mathlib

/-!
Verification of the authentication and invitation lifecycle subsystem of
`main.go` (bearer-token gate, invitation-code registration, rate limiting).

Times are modelled as `Int` seconds (Unix timestamps). Cryptographic
signing/verification and JSON decoding are modelled at the observable level:
a token carries its decoded claims plus flags recording whether it parses and
whether its signature verifies against the service key.
-/

namespace Lab5

/-! ## Token Service (`GenerateJWTToken`, `AuthMiddleware`, `GenerateTokenHandler`) -/

/-- A JWT as observed by `jwt.ParseWithClaims`: the decoded payload claims of
interest (`email`, and the custom numeric `expiry` claim, `none` when the
payload has no numeric `expiry` key), whether the compact serialization parses
at all, and whether its HMAC-SHA256 signature verifies against `jwtKey`.
`GenerateJWTToken` sets only the `email` and `expiry` claims, never the
registered `exp`/`iat`/`nbf` claims, so `MapClaims.Valid()` performs no time
check on these tokens and `token.Valid` reduces to parse + signature success. -/
structure JWT where
  emailClaim : String
  expiryClaim : Option Int
  wellFormed : Bool
  signedWithKey : Bool
deriving DecidableEq, Repr

/-- `GenerateJWTToken(username)` at current time `now`: claims
`{"email": username, "expiry": now + 2h}` signed with `jwtKey`
(2 hours = 7200 seconds; the source comment says "2 minutes" but the code
adds `2 * time.Hour`). -/
def GenerateJWTToken (now : Int) (username : String) : JWT :=
  { emailClaim := username
    expiryClaim := some (now + 7200)
    wellFormed := true
    signedWithKey := true }

/-- A Go interface value held in the claims map, with its dynamic type:
the prepopulated literal `time.Now().Add(2*time.Hour).Unix()` is an `int64`,
while any numeric claim decoded from the token body by `json.Unmarshal` is a
`float64`. -/
inductive GoNum where
  | i64 (v : Int)
  | f64 (v : Int)
deriving DecidableEq, Repr

/-- The value of `claims["expiry"]` after `jwt.ParseWithClaims` has decoded the
token body into the prepopulated `jwt.MapClaims`: `json.Unmarshal` into a
non-nil map merges keys, so a numeric `expiry` in the payload overwrites the
prepopulated `int64` with a `float64`, and an absent `expiry` leaves the
prepopulated `int64` in place. -/
def mergedExpiry (prepopulated : Int) (payloadExpiry : Option Int) : GoNum :=
  match payloadExpiry with
  | none => .i64 prepopulated
  | some v => .f64 v

/-- The Go type assertion `claims["expiry"].(float64)`: succeeds only when the
dynamic type is `float64`. -/
def assertFloat64 : GoNum → Option Int
  | .f64 v => some v
  | .i64 _ => none

/-- Outcome of `AuthMiddleware`'s checks on one request. -/
inductive AuthResult where
  | noHeader
  | invalidToken
  | expiredToken
  | admitted
deriving DecidableEq, Repr

/-- `AuthMiddleware` at current time `now`, given the bearer token extracted
from the `Authorization` header (`none` when `ExtractTokenFromHeader` returned
`""`). It prepopulates `claims["expiry"] := now + 7200` (an `int64`), parses
the token into those claims, rejects on parse/signature failure, then rejects
when the `float64` assertion on `claims["expiry"]` fails or yields `0`.
It never compares the expiry value with the current time. -/
def AuthMiddleware (now : Int) (tok : Option JWT) : AuthResult :=
  match tok with
  | none => .noHeader
  | some t =>
    if t.wellFormed && t.signedWithKey then
      match assertFloat64 (mergedExpiry (now + 7200) t.expiryClaim) with
      | none => .expiredToken
      | some v => if v = 0 then .expiredToken else .admitted
    else .invalidToken

/-- `ExtractTokenFromHeader`: returns `""` when the `Authorization` header is
absent, does not split into exactly two space-separated parts, or the scheme
(lowercased) is not `bearer`; otherwise returns the second part. -/
def ExtractTokenFromHeader (authHeader : Option String) : String :=
  match authHeader with
  | none => ""
  | some h =>
    if h = "" then ""
    else
      let tokenParts := h.splitOn " "
      if tokenParts.length = 2 ∧ (tokenParts.headD "").toLower = "bearer" then
        tokenParts.getD 1 ""
      else ""

/-- `GenerateTokenHandler` on one request: `r.PostFormValue("Email")` yields
`""` when the form value is absent; an empty value is rejected with 401 before
any signing is attempted; a signing error yields 500; otherwise the signed
token is written with a 200 response. -/
def GenerateTokenHandler (now : Int) (emailForm : String) (signErr : Bool) :
    Nat × Option JWT :=
  if emailForm = "" then (401, none)
  else if signErr then (500, none)
  else (200, some (GenerateJWTToken now emailForm))

/-! ## Invitation Registry (`invitation_codes` table, `RegisterHandler`) -/

/-- One row of the `invitation_codes` table. -/
structure InvRecord where
  code : String
  email : String
  used : Bool
  expiresAt : Int
deriving DecidableEq, Repr

/-- The invitation store: the rows of `invitation_codes`. -/
abbrev InvStore := List InvRecord

/-- `SELECT EXISTS(SELECT 1 FROM invitation_codes WHERE code=$1 AND email=$2)`. -/
def codeExists (s : InvStore) (code email : String) : Bool :=
  s.any fun r => r.code = code ∧ r.email = email

/-- `SELECT EXISTS(... WHERE code=$1 AND used=true AND email=$2)`. -/
def isCodeUsed (s : InvStore) (code email : String) : Bool :=
  s.any fun r => r.code = code ∧ r.used = true ∧ r.email = email

/-- `SELECT EXISTS(... WHERE code=$1 AND used=false AND email=$2 AND
expires_at > NOW() - INTERVAL '2 minutes')`: the row is still accepted for up
to 120 seconds after `expires_at`. -/
def isValidCode (now : Int) (s : InvStore) (code email : String) : Bool :=
  s.any fun r =>
    r.code = code ∧ r.used = false ∧ r.email = email ∧ r.expiresAt > now - 120

/-- `UPDATE invitation_codes SET used=true WHERE code=$1` (no email filter):
every row carrying the code is marked used. -/
def markUsed (s : InvStore) (code : String) : InvStore :=
  s.map fun r => if r.code = code then { r with used := true } else r

/-- The invitation-consumption decision of `RegisterHandler`, i.e. the outcome
of its three sequential existence queries (`Consume` in the spec). -/
inductive ConsumeResult where
  | notFound
  | alreadyUsed
  | expired
  | accepted
deriving DecidableEq, Repr

/-- `RegisterHandler`'s check sequence on `(user.Code, user.Email)`:
reject `Invalid invitation code` when no row matches, then
`Used invitation code` when a used row matches, then
`Expired invitation code` when no unused in-window row matches,
otherwise proceed. -/
def consumeCheck (now : Int) (s : InvStore) (code email : String) :
    ConsumeResult :=
  if ¬ codeExists s code email then .notFound
  else if isCodeUsed s code email then .alreadyUsed
  else if ¬ isValidCode now s code email then .expired
  else .accepted

/-- The request body decoded into `User` by `RegisterHandler`. -/
structure RegUser where
  email : String
  password : String
  code : String
deriving DecidableEq, Repr

/-- Outcomes of the fallible collaborator calls inside `RegisterHandler`, in
program order: the three `QueryRow` scans, `bcrypt.GenerateFromPassword`, the
`users` insert, and the `invitation_codes` update. -/
structure RegOutcomes where
  q1Err : Bool
  q2Err : Bool
  q3Err : Bool
  hashErr : Bool
  insertUserErr : Bool
  markUsedErr : Bool
deriving DecidableEq, Repr

/-- Result of one `RegisterHandler` request: HTTP status written, resulting
`invitation_codes` store, and whether the `users` insert took effect. -/
structure RegResult where
  status : Nat
  store : InvStore
  userInserted : Bool
deriving DecidableEq, Repr

/-- `RegisterHandler` on one POST request (the handler returns 405 before any
of this on a non-POST method): the three checks of `consumeCheck` with their
error paths, then hash, then `INSERT INTO users`, then
`UPDATE invitation_codes SET used=true WHERE code=$1`, then 201. A failed
statement leaves the store as it was; a failed update still leaves the user row
inserted. -/
def RegisterHandler (now : Int) (s : InvStore) (u : RegUser)
    (o : RegOutcomes) : RegResult :=
  if o.q1Err then ⟨500, s, false⟩
  else if ¬ codeExists s u.code u.email then ⟨400, s, false⟩
  else if o.q2Err then ⟨500, s, false⟩
  else if isCodeUsed s u.code u.email then ⟨400, s, false⟩
  else if o.q3Err then ⟨500, s, false⟩
  else if ¬ isValidCode now s u.code u.email then ⟨400, s, false⟩
  else if o.hashErr then ⟨500, s, false⟩
  else if o.insertUserErr then ⟨500, s, false⟩
  else if o.markUsedErr then ⟨500, s, true⟩
  else ⟨201, markUsed s u.code, true⟩

/-- `GenerateInvitationCodeHandler`'s store effect:
`INSERT INTO invitation_codes (code, email, used) VALUES ($1, $2, false)`,
with the expiry horizon set by the table. -/
def insertInvitation (s : InvStore) (code email : String) (expiresAt : Int) :
    InvStore :=
  s ++ [⟨code, email, false, expiresAt⟩]

/-! ## Login (`LoginHandler`) -/

/-- One `LoginHandler` request, observed at the level of its collaborator
calls: `tokenString` from the header, the request method, the
`SELECT password_hash FROM users WHERE email=$1` lookup (`none` models
`sql.ErrNoRows`: unknown account), the `bcrypt.CompareHashAndPassword` verdict,
and the `sessions` insert outcome. Returns (HTTP status, response body line). -/
def LoginHandler (tokenString : String) (method : String)
    (passwordHashLookup : Option String) (passwordMatches : Bool)
    (sessionInsertErr : Bool) : Nat × String :=
  if tokenString = "" then (401, "Authorization header not found")
  else if method ≠ "POST" then (405, "Only POST method is allowed!")
  else
    match passwordHashLookup with
    | none => (401, "User not found")
    | some _ =>
      if ¬ passwordMatches then (405, "Invalid credential!")
      else if sessionInsertErr then (500, "session insert error")
      else (200, "Logged in successfully!")

/-! ## Expiry Sweeper (`GetExpiredInvitations`, `ProcessResendCodes`) -/

/-- A row returned by `GetExpiredInvitations`. -/
structure Invitation where
  id : Int
  email : String
deriving DecidableEq, Repr

/-- `SELECT id, email FROM invitation_codes WHERE used = false AND
expires_at < NOW() - INTERVAL '2 minutes'`, evaluated over the store:
unused rows whose expiry lies more than 120 seconds in the past. -/
def GetExpiredInvitations (now : Int) (s : InvStore)
    (idOf : InvRecord → Int) : List Invitation :=
  (s.filter fun r => r.used = false ∧ r.expiresAt < now - 120).map
    fun r => ⟨idOf r, r.email⟩

/-- What one iteration of the `ProcessResendCodes` loop did. -/
structure SweepIteration where
  notified : List Invitation
  errorsLogged : Nat
  slept : Bool
deriving DecidableEq, Repr

/-- One pass of the `for` body of `ProcessResendCodes`, given the outcome of
the `GetExpiredInvitations` query and the per-invitation verdict of the
`ResendInvitation` collaborator (the in-repo stub always returns `nil`; the
notification channel contract allows failure). On a query error the body logs
and executes `continue`, which jumps back to the query WITHOUT reaching the
`time.Sleep(2 * time.Hour)` at the bottom; on success every discovered
invitation is attempted in order, a failed attempt only logs, and the body
falls through to the sleep. -/
def sweepIterationRun (query : Except String (List Invitation))
    (notifyFails : Invitation → Bool) : SweepIteration :=
  match query with
  | .error _ => { notified := [], errorsLogged := 1, slept := false }
  | .ok invs =>
    { notified := invs
      errorsLogged := (invs.filter notifyFails).length
      slept := true }

/-! ## Process control flow (`main`) -/

/-- The top-level statements of `main`, in source order. -/
inductive MainAction where
  | setupDatabase
  | registerRoutes
  | serveHTTP
  | sweep
deriving DecidableEq, Repr

/-- `main`'s statement sequence: `SetupDatabase`, the four `http.HandleFunc`
registrations, `log.Fatal(http.ListenAndServe(":8012", nil))`, and only then
`ProcessResendCodes(db)`. -/
def mainProgram : List MainAction :=
  [.setupDatabase, .registerRoutes, .serveHTTP, .sweep]

/-- Sequential execution of `main`: `http.ListenAndServe` blocks for the
server's lifetime and, if it ever returns, `log.Fatal` exits the process, so
no statement after `serveHTTP` is ever executed. -/
def executedActions : List MainAction → List MainAction
  | [] => []
  | a :: rest =>
    if a = .serveHTTP then [a] else a :: executedActions rest

/-! ## Rate Limiter (`RateLimitMiddleware`, `ipLimiterMap`) -/

/-- A `ratelimit.Bucket` made by `NewBucketWithRate(1, 1)`: capacity 1 token,
refill rate 1 token/second, created full. `avail` is the token count available
at instant `lastTime`. -/
structure Bucket where
  capacity : Int
  avail : Int
  lastTime : Int
deriving DecidableEq, Repr

/-- Token refill at instant `t`: the bucket gains one token per elapsed
second, saturating at capacity. -/
def refill (t : Int) (b : Bucket) : Bucket :=
  { b with avail := min b.capacity (b.avail + (t - b.lastTime)), lastTime := t }

/-- `TakeAvailable(1)`: removes one token when one is available and reports
how many were removed (0 means rate-limited). -/
def takeAvailable1 (b : Bucket) : Int × Bucket :=
  if b.avail ≥ 1 then (1, { b with avail := b.avail - 1 }) else (0, b)

/-- The `ipLimiterMap`: client IP to its bucket. -/
abbrev LimiterMap := List (String × Bucket)

/-- Association-list update. -/
def setBucket (m : LimiterMap) (ip : String) (b : Bucket) : LimiterMap :=
  match m with
  | [] => [(ip, b)]
  | (k, v) :: rest =>
    if k = ip then (k, b) :: rest else (k, v) :: setBucket rest ip b

/-- Association-list lookup. -/
def getBucket (m : LimiterMap) (ip : String) : Option Bucket :=
  match m with
  | [] => none
  | (k, v) :: rest => if k = ip then some v else getBucket rest ip

/-- `RateLimitMiddleware` on one request from `ip` at instant `t`: looks the
IP up in `ipLimiterMap`, lazily creating `NewBucketWithRate(1, 1)` (full:
1 of 1 tokens) on first sight, then calls `TakeAvailable(1)`; 0 taken means
429, otherwise the request is admitted. Returns (admitted?, updated map). -/
def RateLimitMiddleware (t : Int) (ip : String) (m : LimiterMap) :
    Bool × LimiterMap :=
  let limiter :=
    match getBucket m ip with
    | some b => b
    | none => { capacity := 1, avail := 1, lastTime := t }
  let b := refill t limiter
  let taken := takeAvailable1 b
  (taken.1 ≠ 0, setBucket m ip taken.2)

/-- A request sequence through `RateLimitMiddleware`, returning the admission
verdicts in order and the final map. -/
def processRequests (reqs : List (Int × String)) (m : LimiterMap) :
    List Bool × LimiterMap :=
  match reqs with
  | [] => ([], m)
  | (t, ip) :: rest =>
    let step := RateLimitMiddleware t ip m
    let tail := processRequests rest step.2
    (step.1 :: tail.1, tail.2)

/-! ## Theorems -/

/-- C1: `AuthMiddleware` does reject bad signatures, malformed tokens, and an
absent or zero `expiry` claim, and a token fresh from `GenerateJWTToken`
validates; but a token whose embedded expiry (issue time + 2 hours = 7200 s)
lies strictly in the past is still admitted, because the middleware never
compares the expiry claim with the current time. Issued at 0 with expiry 7200,
the token is admitted at time 10000 > 7200, contradicting the claim that
validation fails once the current time passes the issued expiry. -/
theorem auth_admits_expired_token :
    AuthMiddleware 0 (some (GenerateJWTToken 0 "a@x.com")) = .admitted ∧
    AuthMiddleware 10000 (some (GenerateJWTToken 0 "a@x.com")) = .admitted ∧
    (GenerateJWTToken 0 "a@x.com").expiryClaim = some 7200 ∧
    (7200 : Int) < 10000 := by
  exact ⟨rfl, rfl, rfl, by decide⟩

/-- C6: in `main`, `ProcessResendCodes(db)` is sequenced after
`log.Fatal(http.ListenAndServe(...))`, which blocks for the server's lifetime
(and exits the process if it ever returns), so the sweep statement is present
in `main` but is never executed: it does not run concurrently with HTTP
serving, contradicting the claim. -/
theorem sweeper_never_reached :
    MainAction.sweep ∈ mainProgram ∧
    MainAction.sweep ∉ executedActions mainProgram := by
  constructor
  · decide
  · decide

/-- C7: in one iteration of the `ProcessResendCodes` loop, a failed
notification attempt only logs and the remaining invitations are still
attempted, but a failed store query executes `continue`, which skips the
`time.Sleep` at the bottom of the loop: the iteration re-queries immediately
(`slept = false`), contradicting the claim that the loop sleeps the fixed
interval in the query-failure case as well. -/
theorem sweep_query_failure_skips_sleep (e : String) (invs : List Invitation)
    (notifyFails : Invitation → Bool) :
    (sweepIterationRun (.error e) notifyFails).slept = false ∧
    (sweepIterationRun (.ok invs) notifyFails).slept = true ∧
    (sweepIterationRun (.ok invs) notifyFails).notified = invs := by
  exact ⟨rfl, rfl, rfl⟩

/-- C10: `GenerateTokenHandler` rejects an absent or empty `Email` form value
(`r.PostFormValue` yields `""` for an absent value) with HTTP 401 and writes no
token, and whenever a token is produced the subject was non-empty (and the
response is 200 with the signed token). -/
theorem token_only_for_nonempty_email (now : Int) (e : String)
    (signErr : Bool) :
    (e = "" → GenerateTokenHandler now e signErr = (401, none)) ∧
    ((GenerateTokenHandler now e signErr).2 ≠ none →
      e ≠ "" ∧ GenerateTokenHandler now e signErr =
        (200, some (GenerateJWTToken now e))) := by
  constructor
  · intro h
    simp [GenerateTokenHandler, h]
  · intro h
    by_cases he : e = ""
    · exact absurd (by simp [GenerateTokenHandler, he]) h
    · by_cases hs : signErr = true
      · exact absurd (by simp [GenerateTokenHandler, he, hs]) h
      · exact ⟨he, by simp [GenerateTokenHandler, he, hs]⟩

/-- C10 witness: the empty form value at time 0 is rejected with 401 and no
token. -/
theorem token_only_for_nonempty_email_witness :
    GenerateTokenHandler 0 "" false = (401, none) :=
  (token_only_for_nonempty_email 0 "" false).1 rfl

/-- C4: `RegisterHandler` checks the rejection reasons in the fixed order
NotFound (no row for the pair), then AlreadyUsed (a used row for the pair),
then Expired (no unused in-window row for the pair), and otherwise accepts;
each of the four outcomes is reached by a concrete input. -/
theorem consume_reject_order (now : Int) (s : InvStore) (code email : String) :
    (consumeCheck now s code email = .notFound ↔
      codeExists s code email = false) ∧
    (consumeCheck now s code email = .alreadyUsed ↔
      codeExists s code email = true ∧ isCodeUsed s code email = true) ∧
    (consumeCheck now s code email = .expired ↔
      codeExists s code email = true ∧ isCodeUsed s code email = false ∧
        isValidCode now s code email = false) ∧
    (consumeCheck now s code email = .accepted ↔
      codeExists s code email = true ∧ isCodeUsed s code email = false ∧
        isValidCode now s code email = true) ∧
    consumeCheck 0 [] "c" "a" = .notFound ∧
    consumeCheck 0 [⟨"c", "a", true, 1000⟩] "c" "a" = .alreadyUsed ∧
    consumeCheck 1000 [⟨"c", "a", false, 100⟩] "c" "a" = .expired ∧
    consumeCheck 0 [⟨"c", "a", false, 1000⟩] "c" "a" = .accepted := by
  refine ⟨?_, ?_, ?_, ?_, by decide, by decide, by decide, by decide⟩ <;>
    by_cases h1 : codeExists s code email = true <;>
    by_cases h2 : isCodeUsed s code email = true <;>
    by_cases h3 : isValidCode now s code email = true <;>
    simp [consumeCheck, h1, h2, h3]

/-- C2 counterexample: the row `{code := "c", email := "a", used := false,
expires_at := 100}` is accepted at time 150, although 150 is past the
`expires_at` instant 100: the source query
`expires_at > NOW() - INTERVAL '2 minutes'` grants a 2-minute grace period,
so the claim "no acceptance at or after expires_at" is false. -/
theorem consume_grace_period_counterexample :
    consumeCheck 150 [⟨"c", "a", false, 100⟩] "c" "a" = .accepted ∧
    ¬ ((150 : Int) < 100) := by
  exact ⟨by decide, by decide⟩

/-- C2 amended: when the store holds exactly one row for the claimed
`(code, email)` pair, consumption is accepted iff that row is unused and the
current time is strictly before `expires_at + 120` seconds (the source's
2-minute grace window); when no row matches the pair, consumption is never
accepted. -/
theorem consume_accept_iff_grace (now : Int) (s : InvStore)
    (code email : String) (r : InvRecord) :
    (r ∈ s → r.code = code → r.email = email →
      (∀ r2 ∈ s, r2.code = code → r2.email = email → r2 = r) →
      (consumeCheck now s code email = .accepted ↔
        (r.used = false ∧ now < r.expiresAt + 120))) ∧
    ((∀ r2 ∈ s, ¬ (r2.code = code ∧ r2.email = email)) →
      consumeCheck now s code email ≠ .accepted) := by
  constructor
  · intro hmem hc he huniq
    have hex : codeExists s code email = true := by
      simp only [codeExists, List.any_eq_true, decide_eq_true_eq]
      exact ⟨r, hmem, hc, he⟩
    have hused : isCodeUsed s code email = true ↔ r.used = true := by
      simp only [isCodeUsed, List.any_eq_true, decide_eq_true_eq]
      constructor
      · rintro ⟨r2, hm2, hc2, hu2, he2⟩
        rw [huniq r2 hm2 hc2 he2] at hu2
        exact hu2
      · intro hu
        exact ⟨r, hmem, hc, hu, he⟩
    have hvalid : isValidCode now s code email = true ↔
        (r.used = false ∧ r.expiresAt > now - 120) := by
      simp only [isValidCode, List.any_eq_true, decide_eq_true_eq]
      constructor
      · rintro ⟨r2, hm2, hc2, hu2, he2, hx2⟩
        rw [huniq r2 hm2 hc2 he2] at hu2 hx2
        exact ⟨hu2, hx2⟩
      · rintro ⟨hu, hx⟩
        exact ⟨r, hmem, hc, hu, he, hx⟩
    constructor
    · intro hacc
      by_cases h2 : isCodeUsed s code email = true
      · simp [consumeCheck, hex, h2] at hacc
      · by_cases h3 : isValidCode now s code email = true
        · have := hvalid.mp h3
          exact ⟨this.1, by omega⟩
        · simp [consumeCheck, hex, h2, h3] at hacc
    · rintro ⟨hu, hx⟩
      have h3 : isValidCode now s code email = true :=
        hvalid.mpr ⟨hu, by omega⟩
      have h2 : ¬ isCodeUsed s code email = true := by
        rw [hused]
        simp [hu]
      simp [consumeCheck, hex, h2, h3]
  · intro hnone
    have hex : codeExists s code email = false := by
      simp only [codeExists, List.any_eq_false, decide_eq_true_eq]
      intro r2 hm2
      exact hnone r2 hm2
    simp [consumeCheck, hex]

/-- C2 amended witness: the unique row `{code := "c", email := "a",
used := false, expires_at := 200}` is accepted at time 150 < 200 + 120. -/
theorem consume_accept_iff_grace_witness :
    consumeCheck 150 [⟨"c", "a", false, 200⟩] "c" "a" = .accepted :=
  ((consume_accept_iff_grace 150 [⟨"c", "a", false, 200⟩] "c" "a"
      ⟨"c", "a", false, 200⟩).1 (by decide) rfl rfl (by decide)).mpr
    (by decide)

/-- Every row of `markUsed s code` carrying `code` has `used = true`. -/
theorem markUsed_sets_used (s : InvStore) (code : String) :
    ∀ r ∈ markUsed s code, r.code = code → r.used = true := by
  intro r hr hc
  simp only [markUsed, List.mem_map] at hr
  obtain ⟨r0, _, hmap⟩ := hr
  by_cases h : r0.code = code
  · rw [← hmap]
    simp [h]
  · rw [← hmap] at hc
    simp [h] at hc

/-- `markUsed` only rewrites the `used` field: length, `code`, `email` and
`expiresAt` of every row are unchanged, and a row that was already used stays
used. -/
theorem markUsed_get (s : InvStore) (code : String) (i : ℕ)
    (hi : i < s.length) :
    (markUsed s code).length = s.length ∧
    ∀ hj : i < (markUsed s code).length,
      ((markUsed s code).get ⟨i, hj⟩).code = (s.get ⟨i, hi⟩).code ∧
      ((markUsed s code).get ⟨i, hj⟩).email = (s.get ⟨i, hi⟩).email ∧
      ((markUsed s code).get ⟨i, hj⟩).expiresAt = (s.get ⟨i, hi⟩).expiresAt ∧
      ((s.get ⟨i, hi⟩).used = true → ((markUsed s code).get ⟨i, hj⟩).used = true) := by
  refine ⟨by simp [markUsed], ?_⟩
  intro hj
  have hg : (markUsed s code).get ⟨i, hj⟩ =
      (fun r => if r.code = code then { r with used := true } else r)
        (s.get ⟨i, hi⟩) := by
    simp [markUsed]
  rw [hg]
  by_cases h : s[i].code = code <;> simp [h]

/-- Case analysis of `RegisterHandler`: either the invitation store is
untouched and the status is not 201, or the run is the fully successful one
(201, code marked used, user inserted, `insertUserErr` false). -/
theorem registerHandler_cases (now : Int) (s : InvStore) (u : RegUser)
    (o : RegOutcomes) :
    ((RegisterHandler now s u o).store = s ∧
      (RegisterHandler now s u o).status ≠ 201) ∨
    (RegisterHandler now s u o = ⟨201, markUsed s u.code, true⟩ ∧
      codeExists s u.code u.email = true ∧
      o.insertUserErr = false) := by
  unfold RegisterHandler
  repeat' split
  all_goals first
    | exact Or.inl ⟨rfl, by simp⟩
    | (refine Or.inr ⟨rfl, ?_, ?_⟩ <;> simp_all)

/-- C3: in `RegisterHandler`, registration and marking the code used behave as
one logical transaction at the request level: (a) whenever the handler
confirms with 201, every stored row carrying the submitted code has
`used = true`; (b) when the `users` insert fails, the invitation store is
untouched; and (c) the invitation store changes only on the fully confirmed
path (status 201 with the user row inserted). -/
theorem register_single_transaction (now : Int) (s : InvStore) (u : RegUser)
    (o : RegOutcomes) :
    ((RegisterHandler now s u o).status = 201 →
      ∀ r ∈ (RegisterHandler now s u o).store, r.code = u.code →
        r.used = true) ∧
    (o.insertUserErr = true → (RegisterHandler now s u o).store = s) ∧
    ((RegisterHandler now s u o).store = s ∨
      ((RegisterHandler now s u o).status = 201 ∧
        (RegisterHandler now s u o).userInserted = true)) := by
  rcases registerHandler_cases now s u o with ⟨hs, hne⟩ | ⟨heq, _, hins⟩
  · exact ⟨fun h => absurd h hne, fun _ => hs, Or.inl hs⟩
  · refine ⟨?_, ?_, ?_⟩
    · intro _ r hr hc
      rw [heq] at hr
      exact markUsed_sets_used s u.code r hr hc
    · intro h
      rw [h] at hins
      exact absurd hins (by decide)
    · right
      rw [heq]
      exact ⟨rfl, rfl⟩

/-- C3 witness: a fully successful registration (all collaborator calls
succeed, valid unused code) returns 201 and leaves the single row carrying the
code marked used. -/
theorem register_single_transaction_witness :
    (RegisterHandler 0 [⟨"c", "a", false, 1000⟩] ⟨"a", "pw", "c"⟩
        ⟨false, false, false, false, false, false⟩).status = 201 ∧
    ∀ r ∈ (RegisterHandler 0 [⟨"c", "a", false, 1000⟩] ⟨"a", "pw", "c"⟩
        ⟨false, false, false, false, false, false⟩).store,
      r.code = "c" → r.used = true := by
  have h := register_single_transaction 0 [⟨"c", "a", false, 1000⟩]
    ⟨"a", "pw", "c"⟩ ⟨false, false, false, false, false, false⟩
  exact ⟨by decide, fun r hr hc => h.1 (by decide) r hr hc⟩

/-- After `markUsed s code`, a later consume attempt for `(code, email)` hits
the `AlreadyUsed` check, at any time, provided a row for `(code, email)`
existed: the update (which carries no email filter) marked it used. -/
theorem markUsed_consume_already_used (now2 : Int) (s : InvStore)
    (code email : String) (h : codeExists s code email = true) :
    consumeCheck now2 (markUsed s code) code email = .alreadyUsed := by
  simp only [codeExists, List.any_eq_true, decide_eq_true_eq] at h
  obtain ⟨r, hmem, hc, he⟩ := h
  have hmem2 : ({ r with used := true } : InvRecord) ∈ markUsed s code := by
    simp only [markUsed, List.mem_map]
    exact ⟨r, hmem, by simp [hc]⟩
  have h1 : codeExists (markUsed s code) code email = true := by
    simp only [codeExists, List.any_eq_true, decide_eq_true_eq]
    exact ⟨{ r with used := true }, hmem2, hc, he⟩
  have h2 : isCodeUsed (markUsed s code) code email = true := by
    simp only [isCodeUsed, List.any_eq_true, decide_eq_true_eq]
    exact ⟨{ r with used := true }, hmem2, hc, rfl, he⟩
  simp [consumeCheck, h1, h2]

/-- C5 counterexample: after a successful consumption of code `"c"` bound to
email `"a"` (status 201), a second consume attempt with the same code `"c"`
but claimed email `"b"` (which has no record) is rejected as NotFound, not
AlreadyUsed, so "a second Consume with the same code always yields
AlreadyUsed" is false as stated. -/
theorem second_consume_other_email_not_already_used :
    (RegisterHandler 0 [⟨"c", "a", false, 1000⟩] ⟨"a", "pw", "c"⟩
        ⟨false, false, false, false, false, false⟩).status = 201 ∧
    consumeCheck 0 (RegisterHandler 0 [⟨"c", "a", false, 1000⟩]
        ⟨"a", "pw", "c"⟩ ⟨false, false, false, false, false, false⟩).store
      "c" "b" = .notFound ∧
    ConsumeResult.notFound ≠ ConsumeResult.alreadyUsed := by
  exact ⟨by decide, by decide, by decide⟩

/-- C5 amended: consumption is at-most-once and `used` is permanent. (a) a row
whose `used` flag is true keeps it true across any `RegisterHandler` run;
(b) likewise across an invitation insert; (c) after a `RegisterHandler` run
that confirms with 201, every later consume attempt with the same
`(code, email)` pair is rejected as AlreadyUsed, at any later time; a second
attempt with the same code but an email holding no record is rejected as
NotFound rather than AlreadyUsed. -/
theorem used_flag_permanent (now now2 : Int) (s : InvStore) (u : RegUser)
    (o : RegOutcomes) (code email : String) (exp : Int) :
    (∀ i (hi : i < s.length), (s.get ⟨i, hi⟩).used = true →
      ∃ hj : i < (RegisterHandler now s u o).store.length,
        ((RegisterHandler now s u o).store.get ⟨i, hj⟩).used = true) ∧
    (∀ i (hi : i < s.length), (s.get ⟨i, hi⟩).used = true →
      ∃ hj : i < (insertInvitation s code email exp).length,
        ((insertInvitation s code email exp).get ⟨i, hj⟩).used = true) ∧
    ((RegisterHandler now s u o).status = 201 →
      consumeCheck now2 (RegisterHandler now s u o).store u.code u.email =
        .alreadyUsed) := by
  have hins : ∀ i (hi : i < s.length), (s.get ⟨i, hi⟩).used = true →
      ∃ hj : i < (insertInvitation s code email exp).length,
        ((insertInvitation s code email exp).get ⟨i, hj⟩).used = true := by
    intro i hi hu
    have hj : i < (insertInvitation s code email exp).length := by
      simp only [insertInvitation, List.length_append, List.length_cons,
        List.length_nil]
      omega
    refine ⟨hj, ?_⟩
    have hget : (insertInvitation s code email exp).get ⟨i, hj⟩ =
        s.get ⟨i, hi⟩ := by
      simp only [insertInvitation, List.get_eq_getElem]
      rw [List.getElem_append i hj]
      simp [hi]
    rw [hget]
    exact hu
  rcases registerHandler_cases now s u o with ⟨hs, hne⟩ | ⟨heq, hce, _⟩
  · refine ⟨?_, hins, ?_⟩
    · intro i hi hu
      rw [hs]
      exact ⟨hi, hu⟩
    · intro h
      exact absurd h hne
  · refine ⟨?_, hins, ?_⟩
    · intro i hi hu
      rw [heq]
      show ∃ hj : i < (markUsed s u.code).length,
        ((markUsed s u.code).get ⟨i, hj⟩).used = true
      have hlen : (markUsed s u.code).length = s.length := by
        simp [markUsed]
      refine ⟨by rw [hlen]; exact hi, ?_⟩
      exact ((markUsed_get s u.code i hi).2 _).2.2.2 hu
    · intro _
      rw [heq]
      exact markUsed_consume_already_used now2 s u.code u.email hce

/-- C5 amended witness: the single record for `("c", "a")` is consumed with
201 at time 0; a much later consume attempt with the same pair is rejected
AlreadyUsed. -/
theorem used_flag_permanent_witness :
    consumeCheck 99999 (RegisterHandler 0 [⟨"c", "a", false, 1000⟩]
        ⟨"a", "pw", "c"⟩ ⟨false, false, false, false, false, false⟩).store
      "c" "a" = .alreadyUsed :=
  (used_flag_permanent 0 99999 [⟨"c", "a", false, 1000⟩] ⟨"a", "pw", "c"⟩
      ⟨false, false, false, false, false, false⟩ "x" "y" 0).2.2 (by decide)

/-- C8 counterexample: on an authenticated POST login, an unknown account
yields HTTP 401 with body "User not found" while a wrong password yields HTTP
405 with body "Invalid credential!": the two sub-cases are not both 401 and
are distinguishable by status and body, so the claim is false. -/
theorem login_distinguishable_counterexample :
    LoginHandler "tok" "POST" none true false = (401, "User not found") ∧
    LoginHandler "tok" "POST" (some "h") false false =
      (405, "Invalid credential!") ∧
    (405 : Nat) ≠ 401 := by
  exact ⟨rfl, rfl, by decide⟩

/-- C8 amended: `LoginHandler` surfaces the two credential-failure sub-cases
differently: for any bearer token and stored hash, an unknown account is
rejected with 401 "User not found" and a wrong password with 405
"Invalid credential!", so the caller can tell which sub-case applied. -/
theorem login_failure_statuses (tok h : String) (sessionErr : Bool)
    (htok : tok ≠ "") :
    LoginHandler tok "POST" none true sessionErr = (401, "User not found") ∧
    LoginHandler tok "POST" (some h) false sessionErr =
      (405, "Invalid credential!") := by
  constructor
  · simp [LoginHandler, htok]
  · simp [LoginHandler, htok]

/-- C8 amended witness: concrete unknown-account and wrong-password requests
produce the two distinct responses. -/
theorem login_failure_statuses_witness :
    LoginHandler "t" "POST" none true false = (401, "User not found") ∧
    LoginHandler "t" "POST" (some "h") false false =
      (405, "Invalid credential!") :=
  login_failure_statuses "t" "h" false (by decide)

/-- Looking up the key just written into the limiter map finds that bucket. -/
theorem getBucket_setBucket (m : LimiterMap) (ip : String) (b : Bucket) :
    getBucket (setBucket m ip b) ip = some b := by
  induction m with
  | nil => simp [setBucket, getBucket]
  | cons kv rest ih =>
    by_cases h : kv.1 = ip
    · simp [setBucket, getBucket, h]
    · simp [setBucket, getBucket, h, ih]

/-- C9: `RateLimitMiddleware` lazily creates a full bucket (capacity 1, 1
token available) for a previously unseen identity and admits that first
request, leaving the bucket empty; and for the spec scenario (capacity 1,
refill 1 token/second, identity "1.2.3.4") two requests at the same instant
give Admitted then Throttled, and a third one second later is Admitted. -/
theorem rate_limiter_scenario (t : Int) (ip : String) (m : LimiterMap)
    (h : getBucket m ip = none) :
    (RateLimitMiddleware t ip m).1 = true ∧
    getBucket (RateLimitMiddleware t ip m).2 ip =
      some { capacity := 1, avail := 0, lastTime := t } ∧
    (processRequests [(0, "1.2.3.4"), (0, "1.2.3.4"), (1, "1.2.3.4")] []).1 =
      [true, false, true] := by
  have hb : RateLimitMiddleware t ip m =
      (true, setBucket m ip { capacity := 1, avail := 0, lastTime := t }) := by
    simp only [RateLimitMiddleware, h, refill, takeAvailable1]
    norm_num
  refine ⟨?_, ?_, ?_⟩
  · rw [hb]
  · rw [hb]
    exact getBucket_setBucket m ip _
  · decide

/-- C9 witness: the first request from the unseen identity "9.9.9.9" against
an empty limiter map is admitted. -/
theorem rate_limiter_scenario_witness :
    (RateLimitMiddleware 5 "9.9.9.9" []).1 = true :=
  (rate_limiter_scenario 5 "9.9.9.9" [] (by decide)).1

end Lab5
